import Mathlib

/-!
Shallow embedding of the quicker-actix social-graph service (src/main.rs,
src/models.rs) and verification of its specification claims.

Modelling conventions:
- `Uuid` values and `DateTime<Utc>` timestamps are modelled as `Nat`.
- `i32` counters are modelled as `Int` (the SQL `- 1` decrement has no floor,
  so the type must admit negative values).
- The four Postgres tables are lists of row structures inside a `DB` record.
- Each HTTP handler becomes a pure function from the `DB` (plus request data)
  to the new `DB` and an `ApiResponse` carrying the HTTP status class and the
  JSON envelope fields (`success`, `data`, `message`) from models.rs.
- A SQL statement that the handler runs inside a transaction and whose error
  the handler observes is modelled by its deterministic effect; where a claim
  is about an engine failure of a particular statement, that statement gets an
  explicit Boolean fault flag: a failed statement leaves the working state
  unchanged, and the handler code decides (as in the Rust source) whether to
  roll back, return an error, or continue and commit.
- A message built with `format!` in the source keeps only its constant prefix.
-/

namespace Quicker

/-- HTTP status classes used by the handlers in src/main.rs. -/
inductive HttpStatus where
  | ok
  | created
  | badRequest
  | unauthorized
  | notFound
  | internalServerError
deriving DecidableEq, Repr

/-- The response envelope: HTTP status plus the `ApiResponse` JSON body
fields from src/models.rs (`success`, `data`, `message`). -/
structure ApiResponse (α : Type) where
  status : HttpStatus
  success : Bool
  data : Option α
  message : Option String
deriving DecidableEq, Repr

/-- Row of the `users` table (struct `User` in src/models.rs). -/
structure User where
  id : Nat
  username : String
  email : String
  password_hash : String
  display_name : String
  bio : Option String
  profile_image : Option String
  banner_image : Option String
  followers_count : Int
  following_count : Int
  verified : Bool
  created_at : Nat
deriving DecidableEq, Repr

/-- Row of the `tweets` table (struct `Tweet` in src/models.rs). -/
structure Tweet where
  id : Nat
  user_id : Nat
  content : String
  image_url : Option String
  likes_count : Int
  retweets_count : Int
  replies_count : Int
  created_at : Nat
deriving DecidableEq, Repr

/-- Row of the `likes` table (struct `Like` in src/models.rs). -/
structure Like where
  id : Nat
  user_id : Nat
  tweet_id : Nat
  created_at : Nat
deriving DecidableEq, Repr

/-- Row of the `follows` table (struct `Follow` in src/models.rs). -/
structure Follow where
  id : Nat
  follower_id : Nat
  following_id : Nat
  created_at : Nat
deriving DecidableEq, Repr

/-- The persisted state: the four tables of the schema. -/
structure DB where
  users : List User
  tweets : List Tweet
  likes : List Like
  follows : List Follow
deriving DecidableEq, Repr

/-- Public user shape (struct `UserResponse` in src/models.rs).  It has no
`password_hash` field. -/
structure UserResponse where
  id : Nat
  username : String
  email : String
  display_name : String
  bio : Option String
  profile_image : Option String
  banner_image : Option String
  followers_count : Int
  following_count : Int
  verified : Bool
  created_at : Nat
deriving DecidableEq, Repr

/-- The `impl From<User> for UserResponse` conversion in src/models.rs,
field by field (`from` is a Lean keyword, hence the name `fromUser`). -/
def UserResponse.fromUser (user : User) : UserResponse :=
  { id := user.id
    username := user.username
    email := user.email
    display_name := user.display_name
    bio := user.bio
    profile_image := user.profile_image
    banner_image := user.banner_image
    followers_count := user.followers_count
    following_count := user.following_count
    verified := user.verified
    created_at := user.created_at }

/-- Enriched post shape (struct `TweetResponse` in src/models.rs). -/
structure TweetResponse where
  id : Nat
  content : String
  image_url : Option String
  likes_count : Int
  retweets_count : Int
  replies_count : Int
  created_at : Nat
  user : UserResponse
  is_liked : Bool
deriving DecidableEq, Repr

/-- Body of the `PUT /api/users/profile` request
(struct `UpdateProfileRequest` in src/models.rs). -/
structure UpdateProfileRequest where
  display_name : Option String
  bio : Option String
  profile_image : Option String
  banner_image : Option String
deriving DecidableEq, Repr

/-- Effect of the `UPDATE users SET display_name = COALESCE($1, display_name), ...`
statement of `update_profile` on one row: a `COALESCE(param, column)` keeps the
column when the bound parameter is NULL (`none`). -/
def applyProfileUpdate (u : User) (update : UpdateProfileRequest) : User :=
  { u with
    display_name := update.display_name.getD u.display_name
    bio := match update.bio with
      | some b => some b
      | none => u.bio
    profile_image := match update.profile_image with
      | some p => some p
      | none => u.profile_image
    banner_image := match update.banner_image with
      | some p => some p
      | none => u.banner_image }

/-- Handler `update_profile` in src/main.rs: runs the COALESCE update with
`RETURNING *` and `fetch_one`; when no row has the given id, `fetch_one`
yields `RowNotFound` and the handler answers 500 `Database error`. -/
def update_profile (db : DB) (user_id : Nat) (update : UpdateProfileRequest) :
    DB × ApiResponse UserResponse :=
  match db.users.find? (fun u => u.id == user_id) with
  | some u =>
      ({ db with
          users := db.users.map
            (fun v => if v.id == user_id then applyProfileUpdate v update else v) },
       { status := .ok, success := true,
         data := some (UserResponse.fromUser (applyProfileUpdate u update)),
         message := some "Profile updated successfully" })
  | none =>
      (db, { status := .internalServerError, success := false, data := none,
             message := some "Database error" })

/-- Body of the `POST /api/tweets` request
(struct `CreateTweetRequest` in src/models.rs). -/
structure CreateTweetRequest where
  content : String
  image_url : Option String
deriving DecidableEq, Repr

/-- The `#[validate(length(min = 1, max = 280))]` attribute on
`CreateTweetRequest.content` (the validator crate counts characters). -/
def CreateTweetRequest.validate (req : CreateTweetRequest) : Bool :=
  decide (1 ≤ req.content.length) && decide (req.content.length ≤ 280)

/-- Handler `create_tweet` in src/main.rs: validates first (before any storage
access), then inserts the tweet, then fetches the owner row for the response;
a failed owner fetch answers 500 but the tweet stays inserted. -/
def create_tweet (db : DB) (user_id : Nat) (req : CreateTweetRequest)
    (newId now : Nat) : DB × ApiResponse TweetResponse :=
  if !req.validate then
    (db, { status := .badRequest, success := false, data := none,
           message := some "Validation error" })
  else
    let t : Tweet :=
      { id := newId, user_id := user_id, content := req.content,
        image_url := req.image_url, likes_count := 0, retweets_count := 0,
        replies_count := 0, created_at := now }
    let db1 := { db with tweets := db.tweets ++ [t] }
    match db.users.find? (fun u => u.id == user_id) with
    | some u =>
        (db1, { status := .created, success := true,
                data := some
                  { id := t.id, content := t.content, image_url := t.image_url,
                    likes_count := t.likes_count,
                    retweets_count := t.retweets_count,
                    replies_count := t.replies_count,
                    created_at := t.created_at,
                    user := UserResponse.fromUser u, is_liked := false },
                message := some "Tweet created successfully" })
    | none =>
        (db1, { status := .internalServerError, success := false, data := none,
                message := some "Failed to fetch user data" })

theorem CreateTweetRequest.validate_iff (req : CreateTweetRequest) :
    req.validate = true ↔ 1 ≤ req.content.length ∧ req.content.length ≤ 280 := by
  simp [CreateTweetRequest.validate]

/-- The `SELECT EXISTS(SELECT 1 FROM likes WHERE user_id = $1 AND tweet_id = $2)`
query used by `like_tweet` and `get_timeline`. -/
def likeExists (db : DB) (user_id tweet_id : Nat) : Bool :=
  db.likes.any (fun l => l.user_id == user_id && l.tweet_id == tweet_id)

/-- The `UPDATE tweets SET likes_count = likes_count + 1 WHERE id = $1` statement. -/
def incTweetLikes (db : DB) (tweet_id : Nat) : DB :=
  { db with
    tweets := db.tweets.map (fun t =>
      if t.id == tweet_id then { t with likes_count := t.likes_count + 1 } else t) }

/-- The `UPDATE tweets SET likes_count = likes_count - 1 WHERE id = $1`
statement (a plain decrement; the SQL has no `GREATEST(0, ...)` floor). -/
def decTweetLikes (db : DB) (tweet_id : Nat) : DB :=
  { db with
    tweets := db.tweets.map (fun t =>
      if t.id == tweet_id then { t with likes_count := t.likes_count - 1 } else t) }

/-- The `UPDATE users SET following_count = following_count - 1 WHERE id = $1` statement. -/
def decFollowingCount (db : DB) (user_id : Nat) : DB :=
  { db with
    users := db.users.map (fun u =>
      if u.id == user_id then { u with following_count := u.following_count - 1 } else u) }

/-- The `UPDATE users SET followers_count = followers_count - 1 WHERE id = $1` statement. -/
def decFollowersCount (db : DB) (user_id : Nat) : DB :=
  { db with
    users := db.users.map (fun u =>
      if u.id == user_id then { u with followers_count := u.followers_count - 1 } else u) }

/-- Handler `like_tweet` in src/main.rs.  The duplicate pre-check runs against
the pool state `db`; the transaction then runs against `dbTx`, the state at
transaction time (a concurrent duplicate makes the two differ).  The INSERT
fails on the (user_id, tweet_id) uniqueness constraint exactly when the edge
exists in `dbTx`; the handler then rolls the transaction back and answers 500
`Failed to like tweet`.  A failing counter UPDATE (`updateFails`) is also
rolled back with a 500, as in the source. -/
def like_tweet (db dbTx : DB) (user_id tweet_id : Nat) (newId now : Nat)
    (updateFails : Bool) : DB × ApiResponse String :=
  if likeExists db user_id tweet_id then
    (dbTx, { status := .badRequest, success := false, data := none,
             message := some "Already liked this tweet" })
  else if likeExists dbTx user_id tweet_id then
    (dbTx, { status := .internalServerError, success := false, data := none,
             message := some "Failed to like tweet" })
  else
    let db1 := { dbTx with
      likes := dbTx.likes ++ [{ id := newId, user_id := user_id,
                                tweet_id := tweet_id, created_at := now }] }
    if updateFails then
      (dbTx, { status := .internalServerError, success := false, data := none,
               message := some "Database error" })
    else
      (incTweetLikes db1 tweet_id,
       { status := .ok, success := true, data := some "Tweet liked successfully",
         message := none })

/-- Handler `unlike_tweet` in src/main.rs.  The DELETE and the counter UPDATE
run in one transaction; the handler discards the UPDATE result (`let _ =`), so
when the UPDATE fails (`updateFails`, modelled as the statement having no
effect) the transaction is still committed and success is still reported. -/
def unlike_tweet (db : DB) (user_id tweet_id : Nat) (updateFails : Bool) :
    DB × ApiResponse String :=
  let rows_affected :=
    db.likes.countP (fun l => l.user_id == user_id && l.tweet_id == tweet_id)
  if rows_affected > 0 then
    let db1 := { db with
      likes := db.likes.filter
        (fun l => !(l.user_id == user_id && l.tweet_id == tweet_id)) }
    let db2 := if updateFails then db1 else decTweetLikes db1 tweet_id
    (db2, { status := .ok, success := true,
            data := some "Tweet unliked successfully", message := none })
  else
    (db, { status := .notFound, success := false, data := none,
           message := some "Like not found" })

/-- Handler `unfollow_user` in src/main.rs: resolves the target username, then
in one transaction deletes the edge; with zero rows affected it rolls back and
answers 404; otherwise it runs the two counter UPDATEs, discarding their
results (`let _ =`), and commits — a failing UPDATE (modelled as the statement
having no effect) does not stop the commit. -/
def unfollow_user (db : DB) (follower_id : Nat) (username : String)
    (updFollowingFails updFollowersFails : Bool) : DB × ApiResponse String :=
  match db.users.find? (fun u => u.username == username) with
  | none =>
      (db, { status := .notFound, success := false, data := none,
             message := some "User not found" })
  | some target =>
      let following_id := target.id
      let rows_affected := db.follows.countP
        (fun f => f.follower_id == follower_id && f.following_id == following_id)
      if rows_affected > 0 then
        let db1 := { db with
          follows := db.follows.filter (fun f =>
            !(f.follower_id == follower_id && f.following_id == following_id)) }
        let db2 := if updFollowingFails then db1
          else decFollowingCount db1 follower_id
        let db3 := if updFollowersFails then db2
          else decFollowersCount db2 following_id
        (db3, { status := .ok, success := true,
                data := some "User unfollowed successfully", message := none })
      else
        (db, { status := .notFound, success := false, data := none,
               message := some "Not following this user" })

/-- Handler `delete_tweet` in src/main.rs:
`DELETE FROM tweets WHERE id = $1 AND user_id = $2`, answering 404 when zero
rows were affected — one condition covers both a missing id and a tweet owned
by someone else. -/
def delete_tweet (db : DB) (user_id tweet_id : Nat) : DB × ApiResponse String :=
  let rows_affected :=
    db.tweets.countP (fun t => t.id == tweet_id && t.user_id == user_id)
  if rows_affected > 0 then
    ({ db with
        tweets := db.tweets.filter
          (fun t => !(t.id == tweet_id && t.user_id == user_id)) },
     { status := .ok, success := true, data := some "Tweet deleted successfully",
       message := none })
  else
    (db, { status := .notFound, success := false, data := none,
           message := some "Tweet not found or unauthorized" })

/-- The `SELECT following_id FROM follows WHERE follower_id = $1 UNION SELECT $1`
subquery of `get_timeline`: the owner set S of the timeline. -/
def timelineOwners (db : DB) (user_id : Nat) : List Nat :=
  (db.follows.filter (fun f => f.follower_id == user_id)).map Follow.following_id
    ++ [user_id]

/-- The joined candidate rows of the timeline query: tweets whose owner row
exists (`INNER JOIN users u ON t.user_id = u.id`) and whose owner id is in the
owner set, in table order. -/
def timelineRows (db : DB) (user_id : Nat) : List (Tweet × User) :=
  (db.tweets.filterMap (fun t =>
    (db.users.find? (fun u => u.id == t.user_id)).map (fun u => (t, u)))).filter
      (fun r => (timelineOwners db user_id).contains r.1.user_id)

/-- The `ORDER BY t.created_at DESC` clause: the sort key is the timestamp
alone (no secondary key in the SQL); modelled as a stable sort, so tied
timestamps stay in table order. -/
def timelineSorted (db : DB) (user_id : Nat) : List (Tweet × User) :=
  (timelineRows db user_id).insertionSort
    (fun a b => b.1.created_at ≤ a.1.created_at)

/-- Handler `get_timeline` in src/main.rs: the joined query ordered by
`created_at DESC`, limited to 50, then one like-existence lookup per tweet
whose result is taken with `unwrap_or(false)` — when that lookup fails at the
storage layer (`likeFail` is true for the tweet id), `is_liked` is reported as
`false` and the request still succeeds. -/
def get_timeline (db : DB) (user_id : Nat) (likeFail : Nat → Bool) :
    ApiResponse (List TweetResponse) :=
  let rows := (timelineSorted db user_id).take 50
  let tweet_responses := rows.map (fun r =>
    ({ id := r.1.id, content := r.1.content, image_url := r.1.image_url,
       likes_count := r.1.likes_count, retweets_count := r.1.retweets_count,
       replies_count := r.1.replies_count, created_at := r.1.created_at,
       user := { id := r.1.user_id, username := r.2.username,
                 email := r.2.email, display_name := r.2.display_name,
                 bio := r.2.bio, profile_image := r.2.profile_image,
                 banner_image := r.2.banner_image,
                 followers_count := r.2.followers_count,
                 following_count := r.2.following_count,
                 verified := r.2.verified, created_at := r.2.created_at },
       is_liked := if likeFail r.1.id then false
         else likeExists db user_id r.1.id } : TweetResponse))
  { status := .ok, success := true, data := some tweet_responses, message := none }

/-- Counter read-back helpers used to state the counter claims. -/
def tweetLikesCount (db : DB) (tweet_id : Nat) : Option Int :=
  (db.tweets.find? (fun t => t.id == tweet_id)).map Tweet.likes_count

def userFollowersCount (db : DB) (user_id : Nat) : Option Int :=
  (db.users.find? (fun u => u.id == user_id)).map User.followers_count

def userFollowingCount (db : DB) (user_id : Nat) : Option Int :=
  (db.users.find? (fun u => u.id == user_id)).map User.following_count

/-- A `find?` commutes with a row-wise `map` whose function preserves the
predicate (a row update that keeps key fields intact). -/
theorem find?_map_of_pred {α : Type} (p : α → Bool) (g : α → α)
    (hg : ∀ a, p (g a) = p a) (l : List α) :
    (l.map g).find? p = (l.find? p).map g := by
  induction l with
  | nil => rfl
  | cons a l ih =>
    cases h : p a with
    | true =>
      rw [List.map_cons, List.find?_cons_of_pos _ (by rw [hg]; exact h),
        List.find?_cons_of_pos _ h]
      rfl
    | false =>
      rw [List.map_cons,
        List.find?_cons_of_neg _ (by rw [hg, h]; exact Bool.false_ne_true),
        List.find?_cons_of_neg _ (by rw [h]; exact Bool.false_ne_true), ih]

end Quicker

namespace Quicker

/-- Claim C9: the mapping from a persisted `User` row to the public
`UserResponse` shape is a pure function with no credential-hash field: two
`User` rows that differ only in `password_hash` map to equal
`UserResponse` values. -/
theorem fromUser_ignores_password_hash (u : User) (h1 h2 : String) :
    UserResponse.fromUser { u with password_hash := h1 } =
      UserResponse.fromUser { u with password_hash := h2 } := rfl

/-- Claim C5, counterexample: when the id does not resolve, `update_profile`
answers with a 500-class storage error, not with a 404 `NotFoundError` as the
claim states. -/
theorem update_profile_missing_id_is_500 :
    (update_profile ⟨[], [], [], []⟩ 1 ⟨none, none, none, none⟩).2.status ≠
      HttpStatus.notFound ∧
    (update_profile ⟨[], [], [], []⟩ 1 ⟨none, none, none, none⟩).2.status =
      HttpStatus.internalServerError := by
  decide

/-- Claim C5 (amended): `updateProfile` with an id that does not resolve fails
with a 500-class storage error (the `fetch_one` RowNotFound path), leaving the
state unchanged; when the id does resolve it succeeds and applies only the
fields supplied, leaving all other fields unchanged. -/
theorem update_profile_spec (db : DB) (uid : Nat) (r : UpdateProfileRequest) :
    (db.users.find? (fun u => u.id == uid) = none →
      update_profile db uid r =
        (db, { status := .internalServerError, success := false, data := none,
               message := some "Database error" })) ∧
    (∀ u, db.users.find? (fun u => u.id == uid) = some u →
      (update_profile db uid r).2.status = HttpStatus.ok ∧
      (update_profile db uid r).2.success = true ∧
      (update_profile db uid r).2.data =
        some (UserResponse.fromUser (applyProfileUpdate u r)) ∧
      (update_profile db uid r).1.tweets = db.tweets ∧
      (update_profile db uid r).1.likes = db.likes ∧
      (update_profile db uid r).1.follows = db.follows ∧
      ∀ v ∈ db.users,
        (if v.id == uid then applyProfileUpdate v r else v) ∈
          (update_profile db uid r).1.users) ∧
    (∀ u : User,
      (r.display_name = none →
        (applyProfileUpdate u r).display_name = u.display_name) ∧
      (r.bio = none → (applyProfileUpdate u r).bio = u.bio) ∧
      (r.profile_image = none →
        (applyProfileUpdate u r).profile_image = u.profile_image) ∧
      (r.banner_image = none →
        (applyProfileUpdate u r).banner_image = u.banner_image) ∧
      (∀ d, r.display_name = some d →
        (applyProfileUpdate u r).display_name = d) ∧
      (∀ b, r.bio = some b → (applyProfileUpdate u r).bio = some b) ∧
      (applyProfileUpdate u r).id = u.id ∧
      (applyProfileUpdate u r).username = u.username ∧
      (applyProfileUpdate u r).email = u.email ∧
      (applyProfileUpdate u r).password_hash = u.password_hash ∧
      (applyProfileUpdate u r).followers_count = u.followers_count ∧
      (applyProfileUpdate u r).following_count = u.following_count ∧
      (applyProfileUpdate u r).verified = u.verified ∧
      (applyProfileUpdate u r).created_at = u.created_at) := by
  refine ⟨fun h => ?_, fun u hu => ?_, fun u => ?_⟩
  · simp [update_profile, h]
  · refine ⟨?_, ?_, ?_, ?_, ?_, ?_, fun v hv => ?_⟩ <;>
      simp only [update_profile, hu]
    exact List.mem_map_of_mem _ hv
  · refine ⟨fun h => ?_, fun h => ?_, fun h => ?_, fun h => ?_,
      fun d h => ?_, fun b h => ?_, rfl, rfl, rfl, rfl, rfl, rfl, rfl, rfl⟩ <;>
      simp [applyProfileUpdate, h]

/-- Claim C5, witness: the amended theorem applied at a concrete state with no
matching user. -/
theorem update_profile_spec_witness :
    update_profile ⟨[], [], [], []⟩ 1 ⟨none, none, none, none⟩ =
      (⟨[], [], [], []⟩,
       { status := .internalServerError, success := false, data := none,
         message := some "Database error" }) :=
  (update_profile_spec ⟨[], [], [], []⟩ 1 ⟨none, none, none, none⟩).1 (by decide)

/-- Claim C6: `create_tweet` answers a `ValidationError` (400) exactly when the
content length is outside 1..280; on a validation failure the state is
unchanged and the response does not depend on the stored state at all (the
check runs before any storage access); on a valid length the tweet row is
inserted. -/
theorem create_tweet_validates_length (db db' : DB) (uid : Nat)
    (req : CreateTweetRequest) (newId now : Nat) :
    ((create_tweet db uid req newId now).2.status = HttpStatus.badRequest ↔
      ¬(1 ≤ req.content.length ∧ req.content.length ≤ 280)) ∧
    (¬(1 ≤ req.content.length ∧ req.content.length ≤ 280) →
      (create_tweet db uid req newId now).1 = db ∧
      (create_tweet db uid req newId now).2 =
        (create_tweet db' uid req newId now).2) ∧
    (1 ≤ req.content.length ∧ req.content.length ≤ 280 →
      (create_tweet db uid req newId now).2.status ≠ HttpStatus.badRequest ∧
      (create_tweet db uid req newId now).1.tweets = db.tweets ++
        [{ id := newId, user_id := uid, content := req.content,
           image_url := req.image_url, likes_count := 0, retweets_count := 0,
           replies_count := 0, created_at := now }]) := by
  cases hB : req.validate with
  | true =>
    have hv := (CreateTweetRequest.validate_iff req).mp hB
    refine ⟨?_, fun h => absurd hv h, fun _ => ⟨?_, ?_⟩⟩ <;>
      rcases hfind : db.users.find? (fun u => u.id == uid) with _ | u <;>
        simp [create_tweet, hB, hfind, hv]
  | false =>
    have hv : ¬(1 ≤ req.content.length ∧ req.content.length ≤ 280) := by
      intro h
      rw [(CreateTweetRequest.validate_iff req).mpr h] at hB
      exact Bool.true_eq_false.mp hB
    refine ⟨?_, fun _ => ?_, fun h => absurd h hv⟩ <;>
      simp [create_tweet, hB, hv]

/-- Claim C6, witness: empty content (length 0) is rejected with a 400
validation error and the state is untouched. -/
theorem create_tweet_validates_length_witness :
    (create_tweet ⟨[], [], [], []⟩ 1 ⟨"", none⟩ 5 5).1 = ⟨[], [], [], []⟩ ∧
    (create_tweet ⟨[], [], [], []⟩ 1 ⟨"", none⟩ 5 5).2.status =
      HttpStatus.badRequest := by
  have h := create_tweet_validates_length ⟨[], [], [], []⟩ ⟨[], [], [], []⟩
    1 ⟨"", none⟩ 5 5
  exact ⟨(h.2.1 (by decide)).1, h.1.mpr (by decide)⟩

/-- Claim C1 (code-bug exhibit): start from a consistent state — one like edge
on tweet 1 and `likes_count = 1`.  Run `unlike_tweet` with the counter UPDATE
failing.  The handler discards the UPDATE error, commits, and reports success:
the committed state has zero like edges but `likes_count` still 1, and no
error is returned — the rollback-on-failure claim fails on this path. -/
theorem unlike_commits_on_counter_update_failure :
    (unlike_tweet
        { users := [],
          tweets := [{ id := 1, user_id := 2, content := "hi", image_url := none,
                       likes_count := 1, retweets_count := 0, replies_count := 0,
                       created_at := 0 }],
          likes := [{ id := 7, user_id := 3, tweet_id := 1, created_at := 0 }],
          follows := [] } 3 1 true).2.success = true ∧
    (unlike_tweet
        { users := [],
          tweets := [{ id := 1, user_id := 2, content := "hi", image_url := none,
                       likes_count := 1, retweets_count := 0, replies_count := 0,
                       created_at := 0 }],
          likes := [{ id := 7, user_id := 3, tweet_id := 1, created_at := 0 }],
          follows := [] } 3 1 true).2.status = HttpStatus.ok ∧
    (unlike_tweet
        { users := [],
          tweets := [{ id := 1, user_id := 2, content := "hi", image_url := none,
                       likes_count := 1, retweets_count := 0, replies_count := 0,
                       created_at := 0 }],
          likes := [{ id := 7, user_id := 3, tweet_id := 1, created_at := 0 }],
          follows := [] } 3 1 true).1.likes = [] ∧
    (unlike_tweet
        { users := [],
          tweets := [{ id := 1, user_id := 2, content := "hi", image_url := none,
                       likes_count := 1, retweets_count := 0, replies_count := 0,
                       created_at := 0 }],
          likes := [{ id := 7, user_id := 3, tweet_id := 1, created_at := 0 }],
          follows := [] } 3 1 true).1.tweets.map Tweet.likes_count = [1] := by
  decide

/-- Claim C2, counterexample: the like edge is absent at the pre-check state
but present at transaction time (a concurrent duplicate), so the INSERT hits
the uniqueness constraint; the handler answers a 500-class storage error, not
the 400-class conflict the claim states. -/
theorem like_concurrent_duplicate_is_500 :
    (like_tweet ⟨[], [], [], []⟩
        ⟨[], [], [{ id := 7, user_id := 3, tweet_id := 1, created_at := 0 }], []⟩
        3 1 9 9 false).2.status = HttpStatus.internalServerError ∧
    (like_tweet ⟨[], [], [], []⟩
        ⟨[], [], [{ id := 7, user_id := 3, tweet_id := 1, created_at := 0 }], []⟩
        3 1 9 9 false).2.status ≠ HttpStatus.badRequest := by
  decide

/-- Claim C2 (amended): when the edge was absent at the pre-check but the
insert hits the uniqueness constraint (a concurrent duplicate), `like_tweet`
aborts the transaction — the resulting state is exactly the transaction-time
state, so the `likes_count` increment does not apply — and the caller receives
a 500-class storage error `Failed to like tweet`, not a 400-class conflict. -/
theorem like_tweet_conflict_rolls_back (db dbTx : DB) (uid tid nid now : Nat)
    (f : Bool) (hpre : likeExists db uid tid = false)
    (htx : likeExists dbTx uid tid = true) :
    like_tweet db dbTx uid tid nid now f =
      (dbTx, { status := .internalServerError, success := false, data := none,
               message := some "Failed to like tweet" }) := by
  simp [like_tweet, hpre, htx]

/-- Claim C2, witness: the amended theorem applied at the concurrent-duplicate
state. -/
theorem like_tweet_conflict_rolls_back_witness :
    like_tweet ⟨[], [], [], []⟩
        ⟨[], [], [{ id := 8, user_id := 4, tweet_id := 2, created_at := 0 }], []⟩
        4 2 9 9 false =
      (⟨[], [], [{ id := 8, user_id := 4, tweet_id := 2, created_at := 0 }], []⟩,
       { status := .internalServerError, success := false, data := none,
         message := some "Failed to like tweet" }) :=
  like_tweet_conflict_rolls_back _ _ 4 2 9 9 false (by decide) (by decide)

/-- Claim C3, counterexample: unliking while the tweet counter is already zero
drives `likes_count` to -1 — the decrement does not saturate at zero. -/
theorem unlike_counter_goes_negative :
    (unlike_tweet
        { users := [],
          tweets := [{ id := 1, user_id := 2, content := "hi", image_url := none,
                       likes_count := 0, retweets_count := 0, replies_count := 0,
                       created_at := 0 }],
          likes := [{ id := 7, user_id := 3, tweet_id := 1, created_at := 0 }],
          follows := [] } 3 1 false).1.tweets.map Tweet.likes_count = [-1] := by
  decide

/-- Claim C3 (amended): the unlike and unfollow decrements are an
unconditional minus one with no zero floor: whenever the edge deletion
succeeds, the affected counter drops by exactly one — so it becomes negative
when it was already zero; the claimed saturation at zero does not exist. -/
theorem decrement_unconditional (db : DB) (uid tid fid : Nat)
    (uname : String) (target : User)
    (hlike : db.likes.countP (fun l => l.user_id == uid && l.tweet_id == tid) > 0)
    (hfind : db.users.find? (fun u => u.username == uname) = some target)
    (hfol : db.follows.countP
      (fun f => f.follower_id == fid && f.following_id == target.id) > 0) :
    tweetLikesCount (unlike_tweet db uid tid false).1 tid =
      (tweetLikesCount db tid).map (fun c => c - 1) ∧
    userFollowingCount (unfollow_user db fid uname false false).1 fid =
      (userFollowingCount db fid).map (fun c => c - 1) ∧
    userFollowersCount (unfollow_user db fid uname false false).1 target.id =
      (userFollowersCount db target.id).map (fun c => c - 1) := by
  have h1 : (unlike_tweet db uid tid false).1 =
      decTweetLikes
        { db with
          likes := db.likes.filter
            (fun l => !(l.user_id == uid && l.tweet_id == tid)) } tid := by
    simp [unlike_tweet, hlike]
  have h2 : (unfollow_user db fid uname false false).1 =
      decFollowersCount
        (decFollowingCount
          { db with
            follows := db.follows.filter
              (fun f => !(f.follower_id == fid && f.following_id == target.id)) }
          fid) target.id := by
    simp [unfollow_user, hfind, hfol]
  refine ⟨?_, ?_, ?_⟩
  · rw [h1]
    simp only [tweetLikesCount, decTweetLikes]
    rw [find?_map_of_pred _ _ (fun a => by split <;> rfl)]
    cases hf : db.tweets.find? (fun t => t.id == tid) with
    | none => rfl
    | some t =>
      have hp := List.find?_some hf
      simp only [] at hp
      have hp2 : t.id = tid := by simpa using hp
      simp [hp2]
  · rw [h2]
    simp only [userFollowingCount, decFollowersCount, decFollowingCount]
    rw [find?_map_of_pred _ _ (fun a => by split <;> rfl),
      find?_map_of_pred _ _ (fun a => by split <;> rfl)]
    cases hf : db.users.find? (fun u => u.id == fid) with
    | none => rfl
    | some u =>
      have hp := List.find?_some hf
      simp only [] at hp
      simp only [Option.map]
      rw [if_pos hp]
      split <;> rfl
  · rw [h2]
    simp only [userFollowersCount, decFollowersCount, decFollowingCount]
    rw [find?_map_of_pred _ _ (fun a => by split <;> rfl),
      find?_map_of_pred _ _ (fun a => by split <;> rfl)]
    cases hf : db.users.find? (fun u => u.id == target.id) with
    | none => rfl
    | some u =>
      have hp := List.find?_some hf
      simp only [] at hp
      have hp2 : u.id = target.id := by simpa using hp
      simp only [Option.map]
      split <;> simp [hp2]

/-- A two-user state with one follow edge and one like edge, where both the
tweet like counter and the user follow counters are about to be decremented. -/
def wBob : User :=
  { id := 4, username := "bob", email := "b", password_hash := "hb",
    display_name := "Bob", bio := none, profile_image := none,
    banner_image := none, followers_count := 1, following_count := 0,
    verified := false, created_at := 0 }

def wAlice : User :=
  { id := 3, username := "alice", email := "a", password_hash := "ha",
    display_name := "Alice", bio := none, profile_image := none,
    banner_image := none, followers_count := 0, following_count := 1,
    verified := false, created_at := 0 }

def wDb : DB :=
  { users := [wAlice, wBob],
    tweets := [{ id := 1, user_id := 4, content := "hello", image_url := none,
                 likes_count := 0, retweets_count := 0, replies_count := 0,
                 created_at := 0 }],
    likes := [{ id := 7, user_id := 3, tweet_id := 1, created_at := 0 }],
    follows := [{ id := 9, follower_id := 3, following_id := 4, created_at := 0 }] }

/-- Claim C3, witness: the amended decrement theorem applied at the concrete
two-user state. -/
theorem decrement_unconditional_witness :
    tweetLikesCount (unlike_tweet wDb 3 1 false).1 1 =
      (tweetLikesCount wDb 1).map (fun c => c - 1) ∧
    userFollowingCount (unfollow_user wDb 3 "bob" false false).1 3 =
      (userFollowingCount wDb 3).map (fun c => c - 1) ∧
    userFollowersCount (unfollow_user wDb 3 "bob" false false).1 wBob.id =
      (userFollowersCount wDb wBob.id).map (fun c => c - 1) :=
  decrement_unconditional wDb 3 1 3 "bob" wBob (by decide) (by decide) (by decide)

/-- Claim C8: `delete_tweet` succeeds exactly when a tweet with the given id
owned by the requester exists, in which case precisely those rows are removed
and nothing else changes; otherwise — whether the id is absent entirely or the
tweet belongs to a different user — it answers one and the same 404 response
(`Tweet not found or unauthorized`) and leaves the state unchanged. -/
theorem delete_tweet_spec (db : DB) (uid tid : Nat) :
    ((delete_tweet db uid tid).2.success = true ↔
      ∃ t ∈ db.tweets, t.id = tid ∧ t.user_id = uid) ∧
    (¬(∃ t ∈ db.tweets, t.id = tid ∧ t.user_id = uid) →
      delete_tweet db uid tid =
        (db, { status := .notFound, success := false, data := none,
               message := some "Tweet not found or unauthorized" })) ∧
    ((∃ t ∈ db.tweets, t.id = tid ∧ t.user_id = uid) →
      (delete_tweet db uid tid).2.status = HttpStatus.ok ∧
      (delete_tweet db uid tid).1.tweets =
        db.tweets.filter (fun t => !(t.id == tid && t.user_id == uid)) ∧
      (delete_tweet db uid tid).1.users = db.users ∧
      (delete_tweet db uid tid).1.likes = db.likes ∧
      (delete_tweet db uid tid).1.follows = db.follows) := by
  by_cases h : ∃ t ∈ db.tweets, t.id = tid ∧ t.user_id = uid
  · have hc : db.tweets.countP (fun t => t.id == tid && t.user_id == uid) > 0 := by
      rw [gt_iff_lt, List.countP_pos_iff]
      obtain ⟨t, ht, e1, e2⟩ := h
      exact ⟨t, ht, by simp [e1, e2]⟩
    refine ⟨?_, fun hn => absurd h hn, fun _ => ?_⟩
    · simp [delete_tweet, hc, h]
    · simp [delete_tweet, hc]
  · have hc : ¬ db.tweets.countP (fun t => t.id == tid && t.user_id == uid) > 0 := by
      rw [gt_iff_lt, List.countP_pos_iff]
      rintro ⟨t, ht, hp⟩
      simp only [Bool.and_eq_true, beq_iff_eq] at hp
      exact h ⟨t, ht, hp.1, hp.2⟩
    refine ⟨?_, fun _ => ?_, fun ht => absurd ht h⟩
    · simp [delete_tweet, hc, h]
    · simp [delete_tweet, hc]

/-- Claim C8, witness: a tweet owned by user 2 is requested for deletion by
user 3 — the answer is the not-found-shaped 404 and the state is unchanged. -/
theorem delete_tweet_spec_witness :
    delete_tweet
        { users := [],
          tweets := [{ id := 1, user_id := 2, content := "hi", image_url := none,
                       likes_count := 0, retweets_count := 0, replies_count := 0,
                       created_at := 0 }],
          likes := [], follows := [] } 3 1 =
      ({ users := [],
         tweets := [{ id := 1, user_id := 2, content := "hi", image_url := none,
                      likes_count := 0, retweets_count := 0, replies_count := 0,
                      created_at := 0 }],
         likes := [], follows := [] },
       { status := .notFound, success := false, data := none,
         message := some "Tweet not found or unauthorized" }) :=
  (delete_tweet_spec _ 3 1).2.1 (by decide)

/-- A state whose tweet table holds two tweets by one owner with the same
creation timestamp, in one storage order. -/
def permA : DB :=
  { users := [{ id := 2, username := "carol", email := "c", password_hash := "hc",
                display_name := "Carol", bio := none, profile_image := none,
                banner_image := none, followers_count := 0, following_count := 0,
                verified := false, created_at := 0 }],
    tweets := [{ id := 1, user_id := 2, content := "first", image_url := none,
                 likes_count := 0, retweets_count := 0, replies_count := 0,
                 created_at := 5 },
               { id := 2, user_id := 2, content := "second", image_url := none,
                 likes_count := 0, retweets_count := 0, replies_count := 0,
                 created_at := 5 }],
    likes := [], follows := [] }

/-- The same rows as `permA`, with the tweet table stored in the other
order. -/
def permB : DB :=
  { users := permA.users,
    tweets := [{ id := 2, user_id := 2, content := "second", image_url := none,
                 likes_count := 0, retweets_count := 0, replies_count := 0,
                 created_at := 5 },
               { id := 1, user_id := 2, content := "first", image_url := none,
                 likes_count := 0, retweets_count := 0, replies_count := 0,
                 created_at := 5 }],
    likes := [], follows := [] }

/-- Claim C4, counterexample: two states holding exactly the same rows (the
tweet table merely permuted) give, for the same user, timelines with the same
elements but in different orders — with tied timestamps the output order is
storage order, not a post-id tie-break, so the result order is not a function
of the row set and no stable secondary key exists. -/
theorem get_timeline_tie_order_not_keyed :
    permA.tweets.Perm permB.tweets ∧
    permA.users = permB.users ∧
    permA.likes = permB.likes ∧
    permA.follows = permB.follows ∧
    ((get_timeline permA 2 (fun _ => false)).data.getD []).Perm
      ((get_timeline permB 2 (fun _ => false)).data.getD []) ∧
    get_timeline permA 2 (fun _ => false) ≠
      get_timeline permB 2 (fun _ => false) := by
  decide

/-- Claim C4 (amended): the timeline holds at most 50 entries — exactly
`min 50` (number of candidate rows) — ordered by creation timestamp
descending, and every entry comes from a candidate row; ties carry no
secondary key (storage order), so only the timestamp ordering is
guaranteed. -/
theorem get_timeline_sorted_truncated (db : DB) (uid : Nat)
    (likeFail : Nat → Bool) :
    ∀ l, (get_timeline db uid likeFail).data = some l →
      l.length = min 50 (timelineRows db uid).length ∧
      l.Pairwise (fun a b => b.created_at ≤ a.created_at) ∧
      ∀ r ∈ l, ∃ row ∈ timelineRows db uid,
        r.id = row.1.id ∧ r.created_at = row.1.created_at := by
  intro l hl
  simp only [get_timeline, Option.some.injEq] at hl
  subst hl
  refine ⟨?_, ?_, ?_⟩
  · rw [List.length_map, List.length_take, timelineSorted,
      List.length_insertionSort]
  · have hs : (timelineSorted db uid).Pairwise
        (fun a b => b.1.created_at ≤ a.1.created_at) := by
      haveI : IsTrans (Tweet × User)
          (fun a b => b.1.created_at ≤ a.1.created_at) :=
        ⟨fun _ _ _ hab hbc => Nat.le_trans hbc hab⟩
      haveI : IsTotal (Tweet × User)
          (fun a b => b.1.created_at ≤ a.1.created_at) :=
        ⟨fun _ _ => Nat.le_total _ _⟩
      exact List.sorted_insertionSort _ _
    have ht : ((timelineSorted db uid).take 50).Pairwise
        (fun a b => b.1.created_at ≤ a.1.created_at) :=
      hs.sublist (List.take_sublist 50 _)
    rw [List.pairwise_map]
    exact ht
  · intro r hr
    rw [List.mem_map] at hr
    obtain ⟨row, hrow, rfl⟩ := hr
    have h1 : row ∈ timelineSorted db uid :=
      (List.take_sublist 50 _).mem hrow
    have h2 : row ∈ timelineRows db uid := by
      rw [timelineSorted] at h1
      exact (List.mem_insertionSort _).mp h1
    exact ⟨row, h2, rfl, rfl⟩

/-- Claim C4, witness: the amended theorem applied to the two-tweet state. -/
theorem get_timeline_sorted_truncated_witness :
    ((get_timeline permA 2 (fun _ => false)).data.getD []).length =
      min 50 (timelineRows permA 2).length ∧
    ((get_timeline permA 2 (fun _ => false)).data.getD []).Pairwise
      (fun a b => b.created_at ≤ a.created_at) := by
  have h := get_timeline_sorted_truncated permA 2 (fun _ => false)
    ((get_timeline permA 2 (fun _ => false)).data.getD []) (by decide)
  exact ⟨h.1, h.2.1⟩

/-- Claim C7: membership in the owner set S of the timeline query is exactly
`follows(uid, x) or x = uid`; with zero follows S is just the own id of the user,
and a tweet owned by the user always passes the owner filter. -/
theorem timelineOwners_spec (db : DB) (uid tid : Nat) :
    ((timelineOwners db uid).contains tid = true ↔
      ((∃ f ∈ db.follows, f.follower_id = uid ∧ f.following_id = tid) ∨
        tid = uid)) ∧
    (db.follows.filter (fun f => f.follower_id == uid) = [] →
      timelineOwners db uid = [uid]) ∧
    (∀ t : Tweet, t.user_id = uid →
      (timelineOwners db uid).contains t.user_id = true) := by
  have hmain : ∀ x : Nat, (timelineOwners db uid).contains x = true ↔
      ((∃ f ∈ db.follows, f.follower_id = uid ∧ f.following_id = x) ∨
        x = uid) := by
    intro x
    rw [show (timelineOwners db uid).contains x = List.elem x (timelineOwners db uid) from rfl,
      List.elem_iff]
    simp only [timelineOwners, List.mem_append, List.mem_map, List.mem_filter,
      List.mem_singleton, beq_iff_eq]
    constructor
    · rintro (⟨f, ⟨hf, hfl⟩, hfo⟩ | h)
      · exact Or.inl ⟨f, hf, hfl, hfo⟩
      · exact Or.inr h
    · rintro (⟨f, hf, hfl, hfo⟩ | h)
      · exact Or.inl ⟨f, ⟨hf, hfl⟩, hfo⟩
      · exact Or.inr h
  refine ⟨hmain tid, fun hfil => ?_, fun t ht => ?_⟩
  · simp [timelineOwners, hfil]
  · exact (hmain t.user_id).mpr (Or.inr ht)

/-- Claim C7, witness: with zero follows the owner set is just the own id of
the user, and with one follow edge the followed id passes the owner test. -/
theorem timelineOwners_spec_witness :
    timelineOwners ⟨[], [], [], []⟩ 3 = [3] ∧
    (timelineOwners wDb 3).contains 4 = true := by
  refine ⟨(timelineOwners_spec ⟨[], [], [], []⟩ 3 0).2.1 (by decide), ?_⟩
  exact (timelineOwners_spec wDb 3 4).1.mpr
    (Or.inl ⟨{ id := 9, follower_id := 3, following_id := 4, created_at := 0 },
      by decide, rfl, rfl⟩)

/-- Claim C10: the timeline request succeeds no matter which per-post
like-existence lookups fail at the storage layer, and every returned post
whose lookup failed reports `is_liked = false` (`unwrap_or(false)`); the
failure is never surfaced to the caller. -/
theorem get_timeline_likeFail_defaults_false (db : DB) (uid : Nat)
    (likeFail : Nat → Bool) :
    (get_timeline db uid likeFail).status = HttpStatus.ok ∧
    (get_timeline db uid likeFail).success = true ∧
    ∀ r ∈ ((get_timeline db uid likeFail).data.getD []),
      likeFail r.id = true → r.is_liked = false := by
  refine ⟨rfl, rfl, fun r hr hfail => ?_⟩
  simp only [get_timeline, Option.getD] at hr
  rw [List.mem_map] at hr
  obtain ⟨row, hrow, rfl⟩ := hr
  simp only [] at hfail
  simp [hfail]

/-- Claim C10, witness: with every like lookup failing, the timeline of a
followed poster still succeeds and reports the post with `is_liked` false. -/
theorem get_timeline_likeFail_defaults_false_witness :
    (get_timeline wDb 3 (fun _ => true)).success = true ∧
    ((get_timeline wDb 3 (fun _ => true)).data.getD []).map
      TweetResponse.is_liked = [false] := by
  have h := get_timeline_likeFail_defaults_false wDb 3 (fun _ => true)
  refine ⟨h.2.1, ?_⟩
  have hm := h.2.2
  have hdata : ((get_timeline wDb 3 (fun _ => true)).data.getD []).map
      TweetResponse.id = [1] := by decide
  cases hl : ((get_timeline wDb 3 (fun _ => true)).data.getD []) with
  | nil => rw [hl] at hdata; exact absurd hdata (by decide)
  | cons a l =>
    cases l with
    | nil =>
      rw [hl] at hm
      have := hm a (List.mem_singleton.mpr rfl) rfl
      simp [this]
    | cons b l2 =>
      rw [hl] at hdata
      exact absurd (congrArg List.length hdata) (by simp)

end Quicker
